import Mathlib

/-!
Verification development for the Taurus nose reporting plugin
(`src/bzt/resources/nose_plugin.py`).

The plugin is shallowly embedded: the per-test mutable dictionary
`jtl_dict` becomes an explicit record of Python-like values (`PVal`,
since the dictionary mixes integers and strings), the plugin object
becomes an explicit `PluginState` threaded through the lifecycle
callbacks, and the two output streams become pure fields of the state
(the list of CSV rows written, and the bytes pushed to the XML error
writer).  Wall-clock readings are modelled as integer milliseconds
passed in explicitly.  The stdout progress line written by `stopTest`
is not an output artifact and is not modelled.
-/

namespace NosePlugin

/-! ### Identity parsing (SEARCH_PATTERNS)

The source extracts identity parts with `re.findall` and three
patterns over the test-descriptor string, taking the first match or
the empty string:

  file   : `\((.*?)\.`   -- first `(`, lazily up to the next literal dot
  class  : `\.(.*?)\)`   -- first `.`, lazily up to the next `)`
  method : `(.*?)\ `     -- lazily up to the next space (leftmost match)

`.` in these patterns matches any character except a newline, and the
lazy `.*?` takes the shortest capture at the leftmost possible start
position, which is exactly what the functions below compute.
-/

/-- Lazy `(.*?)c` step: capture characters until the terminator `c`,
failing at end of input or at a newline (which `.` cannot match). -/
def lazyCapture (term : Char) : List Char → Option (List Char)
  | [] => none
  | ch :: rest =>
    if ch = term then some []
    else if ch = '\n' then none
    else (lazyCapture term rest).map (fun cap => ch :: cap)

/-- First capture of `\((.*?)\.` : leftmost `(` from which a literal
dot is lazily reachable. -/
def fileCapture : List Char → Option (List Char)
  | [] => none
  | ch :: rest =>
    if ch = '(' then
      match lazyCapture '.' rest with
      | some cap => some cap
      | none => fileCapture rest
    else fileCapture rest

/-- First capture of `\.(.*?)\)` : leftmost `.` from which a `)` is
lazily reachable. -/
def classCapture : List Char → Option (List Char)
  | [] => none
  | ch :: rest =>
    if ch = '.' then
      match lazyCapture ')' rest with
      | some cap => some cap
      | none => classCapture rest
    else classCapture rest

/-- First capture of `(.*?)\ ` : the match starts at the leftmost
position from which a space is lazily reachable, capturing the
characters before that space. -/
def methodCapture : List Char → Option (List Char)
  | [] => none
  | ch :: rest =>
    match lazyCapture ' ' (ch :: rest) with
    | some cap => some cap
    | none => methodCapture rest

/-- `findall[0] if findall else ""` : an absent match degrades to the
empty string (an empty capture also yields the empty string). -/
def capToString : Option (List Char) → String
  | none => ""
  | some l => String.mk l

def parseFile (s : String) : String := capToString (fileCapture s.data)

def parseClass (s : String) : String := capToString (classCapture s.data)

def parseMethod (s : String) : String := capToString (methodCapture s.data)

/-! ### Python values and the per-test record `jtl_dict` -/

/-- A Python value stored in `jtl_dict`: the dict is initialised with
the integer `0` for every key and some keys are later overwritten with
strings, so the model keeps both shapes. -/
inductive PVal where
  | i (n : Int)
  | s (str : String)
deriving DecidableEq, Repr

/-- Python `str()`, as applied by the csv writer and by the explicit
`str(...)` calls in `stopTest`. -/
def pyStr : PVal → String
  | PVal.i n => toString n
  | PVal.s str => str

/-- Column order of the tabular sample log (JTL_HEADER). -/
def JTL_HEADER : List String :=
  ["timeStamp", "elapsed", "label", "responseCode", "responseMessage", "threadName",
   "success", "grpThreads", "allThreads", "Latency", "Connect"]

/-- The per-test record `jtl_dict`, with one field per JTL_HEADER key. -/
structure JtlDict where
  timeStamp : PVal
  elapsed : PVal
  label : PVal
  responseCode : PVal
  responseMessage : PVal
  threadName : PVal
  success : PVal
  grpThreads : PVal
  allThreads : PVal
  latency : PVal
  connect : PVal
deriving DecidableEq, Repr

/-- `{}.fromkeys(JTL_HEADER, 0)` : every field starts as integer 0. -/
def freshJtl : JtlDict :=
  { timeStamp := PVal.i 0, elapsed := PVal.i 0, label := PVal.i 0, responseCode := PVal.i 0,
    responseMessage := PVal.i 0, threadName := PVal.i 0, success := PVal.i 0,
    grpThreads := PVal.i 0, allThreads := PVal.i 0, latency := PVal.i 0, connect := PVal.i 0 }

/-- The CSV row `csv_writer.writerow(jtl_dict)` produces, in
JTL_HEADER column order; the csv module stringifies each value. -/
def rowOf (j : JtlDict) : List String :=
  [pyStr j.timeStamp, pyStr j.elapsed, pyStr j.label, pyStr j.responseCode,
   pyStr j.responseMessage, pyStr j.threadName, pyStr j.success, pyStr j.grpThreads,
   pyStr j.allThreads, pyStr j.latency, pyStr j.connect]

/-! ### Exceptions and outcome signals -/

/-- The `sys.exc_info()`-style triple stashed in `self.last_err`.
`typeName` models `err[0].__name__`, `msg` models `err[1]` as used in
string concatenation, and `tbText` models
`"".join(traceback.format_tb(err[2]))`. -/
structure ExcInfo where
  typeName : String
  msg : String
  tbText : String
deriving DecidableEq, Repr

/-- One outcome callback fired by the host framework between
`startTest` and `stopTest`. -/
inductive Signal where
  | error (err : ExcInfo)
  | failure (err : ExcInfo)
  | skip
  | success
deriving DecidableEq, Repr

/-! ### The XML error writer (JTLErrorWriter / write_element) -/

/-- The 14-attribute sample dict built in `stopTest`
(JTL_ERR_ATRS order: t, lt, ct, ts, s, lb, rc, rm, tn, dt, de, by, ng, na).
Fields the source assigns directly from `jtl_dict` keep their `PVal`;
fields the source passes through `str(...)` are strings.  The Python
key `by` is named `byAttr` here because `by` is reserved in Lean. -/
structure ErrSample where
  t : PVal
  lt : String
  ct : String
  ts : String
  s : PVal
  lb : PVal
  rc : PVal
  rm : String
  tn : PVal
  dt : String
  de : String
  byAttr : String
  ng : String
  na : String
deriving DecidableEq, Repr

/-- One `add_sample(sample, url, resp_data)` call: the attribute set,
the URL text (the test label) and the response-body trace text. -/
structure ErrEntry where
  sample : ErrSample
  url : PVal
  respData : String
deriving DecidableEq, Repr

/-- Text escaping as lxml applies it to element text. -/
def xmlTextEscape (s : String) : String :=
  String.join (s.data.map (fun c =>
    if c = '&' then "&amp;"
    else if c = '<' then "&lt;"
    else if c = '>' then "&gt;"
    else String.mk [c]))

/-- Attribute-value escaping as lxml applies it inside double quotes. -/
def xmlAttrEscape (s : String) : String :=
  String.join (s.data.map (fun c =>
    if c = '&' then "&amp;"
    else if c = '<' then "&lt;"
    else if c = '>' then "&gt;"
    else if c = '"' then "&quot;"
    else String.mk [c]))

/-- One serialized attribute, leading space included. -/
def attrText (k v : String) : String := " " ++ k ++ "=\"" ++ xmlAttrEscape v ++ "\""

def gen_resp_header : String := "<responseHeader class=\"java.lang.String\"/>"

def gen_req_header : String := "<requestHeader class=\"java.lang.String\"/>"

def gen_resp_data (data : String) : String :=
  "<responseData class=\"java.lang.String\">" ++ xmlTextEscape data ++ "</responseData>"

def gen_cookies : String := "<cookies class=\"java.lang.String\"/>"

def gen_method : String := "<method class=\"java.lang.String\"/>"

def gen_queryString : String := "<queryString class=\"java.lang.String\"/>"

def gen_url (url : String) : String :=
  "<java.net.URL>" ++ xmlTextEscape url ++ "</java.net.URL>"

/-- Serialization of the composite `httpSample` element built by
`gen_httpSample` and written by `xf.write`, attributes in dict
(JTL_ERR_ATRS) order and the seven children in append order. -/
def gen_httpSample (sample : ErrSample) (url : String) (resp_data : String) : String :=
  "<httpSample" ++ attrText "t" (pyStr sample.t) ++ attrText "lt" sample.lt ++
    attrText "ct" sample.ct ++ attrText "ts" sample.ts ++ attrText "s" (pyStr sample.s) ++
    attrText "lb" (pyStr sample.lb) ++ attrText "rc" (pyStr sample.rc) ++
    attrText "rm" sample.rm ++ attrText "tn" (pyStr sample.tn) ++ attrText "dt" sample.dt ++
    attrText "de" sample.de ++ attrText "by" sample.byAttr ++ attrText "ng" sample.ng ++
    attrText "na" sample.na ++ ">" ++
  gen_resp_header ++ gen_req_header ++ gen_resp_data resp_data ++ gen_cookies ++
  gen_method ++ gen_queryString ++ gen_url url ++ "</httpSample>"

def serializeEntry (en : ErrEntry) : String :=
  gen_httpSample en.sample (pyStr en.url) en.respData

/-- `xf.write_declaration()` output (single-quoted, as lxml emits). -/
def xmlDeclaration : String := "<?xml version=\x271.0\x27 encoding=\x27UTF-8\x27?>\n"

def testResultsOpenTag : String := "<testResults version=\"1.2\">"

def testResultsCloseTag : String := "</testResults>"

/-- The `JTLErrorWriter` wrapping the `write_element` generator:
`out` is everything written to the error stream so far and `closed`
records whether the generator was closed (root end-tag committed). -/
structure JTLErrorWriter where
  out : String
  closed : Bool
deriving DecidableEq, Repr

/-- `JTLErrorWriter.__init__` + first `next`: the generator runs up to
its first yield, having written the declaration and the open root tag. -/
def jtlWriterOpen : JTLErrorWriter :=
  { out := xmlDeclaration ++ testResultsOpenTag, closed := false }

/-- `add_sample`: send one composite element into the generator, which
writes and flushes it. -/
def add_sample (w : JTLErrorWriter) (en : ErrEntry) : JTLErrorWriter :=
  { w with out := w.out ++ serializeEntry en }

/-- `JTLErrorWriter.close`: closing the generator raises GeneratorExit
at the yield; the `with xf.element(...)` block then writes the root
end-tag.  Closing an already-closed generator is a no-op. -/
def jtlWriterClose (w : JTLErrorWriter) : JTLErrorWriter :=
  if w.closed then w else { w with out := w.out ++ testResultsCloseTag, closed := true }

/-! ### The plugin state (TaurusNosePlugin) -/

/-- The mutable fields of `TaurusNosePlugin`, plus the contents of the
two output streams it owns (`csvRows` is what went through the csv
writer, header row included; `error_writer.out` is what went to the
error stream).  `errEntries` records the sequence of `add_sample`
calls; `outClosed` / `errClosed` record `out_stream.close()` /
`err_stream.close()`. -/
structure PluginState where
  module_name : String
  method_name : String
  test_count : Nat
  success : Nat
  jtl_dict : JtlDict
  last_err : Option ExcInfo
  startTime : Int
  csvRows : List (List String)
  error_writer : JTLErrorWriter
  errEntries : List ErrEntry
  outClosed : Bool
  errClosed : Bool
deriving DecidableEq, Repr

/-- `begin()`: open both streams, write the CSV header row, open the
error writer (declaration + root open tag), set `_module_name = ""`.
In the source `jtl_dict` is `None` until the first `startTest`; the
model seeds it with `freshJtl`, which no output can observe because
every test's `startTest` rebuilds the record from scratch. -/
def beginState : PluginState :=
  { module_name := "", method_name := "",
    test_count := 0, success := 0,
    jtl_dict := freshJtl, last_err := none, startTime := 0,
    csvRows := [JTL_HEADER],
    error_writer := jtlWriterOpen, errEntries := [],
    outClosed := false, errClosed := false }

/-- `addError(test, err)`: responseCode := "500", stash the exception. -/
def addError (st : PluginState) (err : ExcInfo) : PluginState :=
  { st with jtl_dict := { st.jtl_dict with responseCode := PVal.s "500" },
            last_err := some err }

/-- `addFailure(test, err)`: responseCode := "404", stash the exception. -/
def addFailure (st : PluginState) (err : ExcInfo) : PluginState :=
  { st with jtl_dict := { st.jtl_dict with responseCode := PVal.s "404" },
            last_err := some err }

/-- `addSkip(test)`: responseCode := "300" (the stashed exception, if
any, is left untouched). -/
def addSkip (st : PluginState) : PluginState :=
  { st with jtl_dict := { st.jtl_dict with responseCode := PVal.s "300" } }

/-- `addSuccess(test)`: responseCode := "200", success := "true",
responseMessage := "OK", and bump the run-level success counter. -/
def addSuccess (st : PluginState) : PluginState :=
  { st with
    jtl_dict := { st.jtl_dict with
      responseCode := PVal.s "200",
      success := PVal.s "true",
      responseMessage := PVal.s "OK" },
    success := st.success + 1 }

/-- Dispatch one outcome callback. -/
def processSignal (st : PluginState) : Signal → PluginState
  | Signal.error err => addError st err
  | Signal.failure err => addFailure st err
  | Signal.skip => addSkip st
  | Signal.success => addSuccess st

/-- `startTest(test)`: parse the identity string, refresh
`_module_name` (the `if` only skips a redundant reassignment), reset
`last_err`, record the start time, and rebuild `jtl_dict` with the
identity fields, the fixed widths, and `success = "false"`.
`nowMs` stands for `int(1000 * time())`. -/
def startTest (st : PluginState) (test : String) (nowMs : Int) : PluginState :=
  let file_name := parseFile test
  let class_name := parseClass test
  let module_name :=
    if st.module_name ≠ file_name ++ "." ++ class_name then file_name ++ "." ++ class_name
    else st.module_name
  let method_name := parseMethod test
  { st with
    module_name := module_name,
    method_name := method_name,
    last_err := none,
    startTime := nowMs,
    jtl_dict := { freshJtl with
      timeStamp := PVal.i nowMs,
      label := PVal.s method_name,
      threadName := PVal.s module_name,
      grpThreads := PVal.i 1,
      allThreads := PVal.i 1,
      success := PVal.s "false" } }

/-- The 14-attribute sample dict `stopTest` builds when an exception
was stashed (JTL_ERR_ATRS order; values copied or stringified from the
finished `jtl_dict`). -/
def mkErrSample (j : JtlDict) (exc_type_name : String) (trace : String) : ErrSample :=
  { t := j.elapsed, lt := pyStr j.latency, ct := pyStr j.connect, ts := pyStr j.timeStamp,
    s := j.success, lb := j.label, rc := j.responseCode, rm := exc_type_name,
    tn := j.threadName, dt := "text", de := "", byAttr := toString trace.length,
    ng := "1", na := "1" }

/-- `stopTest(test)`: bump the test counter, finalise `elapsed`; if an
exception is stashed, overwrite `responseMessage` with its type name,
build the trace text (`"".join(format_tb(tb)) + "\n" + err[1]`) and
push one sample to the error writer; unconditionally write the CSV row
and flush. -/
def stopTest (st : PluginState) (nowMs : Int) : PluginState :=
  let elapsedStr := toString (nowMs - st.startTime)
  match st.last_err with
  | none =>
    let j := { st.jtl_dict with elapsed := PVal.s elapsedStr }
    { st with
      test_count := st.test_count + 1,
      jtl_dict := j,
      csvRows := st.csvRows ++ [rowOf j] }
  | some err =>
    let trace := err.tbText ++ "\n" ++ err.msg
    let j := { st.jtl_dict with
      elapsed := PVal.s elapsedStr,
      responseMessage := PVal.s err.typeName }
    let entry : ErrEntry :=
      { sample := mkErrSample j err.typeName trace, url := j.label, respData := trace }
    { st with
      test_count := st.test_count + 1,
      jtl_dict := j,
      error_writer := add_sample st.error_writer entry,
      errEntries := st.errEntries ++ [entry],
      csvRows := st.csvRows ++ [rowOf j] }

/-- `finalize(result)`: close the error writer (committing the root
end-tag), close both streams, then raise `RuntimeError("Nothing to
test.")` when the test counter is zero.  The closes happen before the
check, so they occur whether or not the error is raised. -/
def finalize (st : PluginState) : PluginState × Option String :=
  let st1 := { st with
    error_writer := jtlWriterClose st.error_writer,
    outClosed := true,
    errClosed := true }
  if st1.test_count = 0 then (st1, some "Nothing to test.") else (st1, none)

/-! ### One sequential test and a whole run -/

/-- One test as the host framework reports it: an identity string, the
start/stop clock readings, and the outcome callbacks fired in between. -/
structure TestRun where
  test : String
  startMs : Int
  signals : List Signal
  stopMs : Int
deriving DecidableEq, Repr

/-- Fold the outcome callbacks over the state. -/
def foldSignals (st : PluginState) (sigs : List Signal) : PluginState :=
  sigs.foldl processSignal st

/-- Process one test strictly sequentially:
`startTest`, the outcome callbacks, `stopTest`. -/
def runTest (st : PluginState) (t : TestRun) : PluginState :=
  stopTest (foldSignals (startTest st t.test t.startMs) t.signals) t.stopMs

/-- Process a whole run: `begin()` then each test in order. -/
def runAll (ts : List TestRun) : PluginState :=
  ts.foldl runTest beginState

/-- The CSV row a given test contributes (independent of the state the
run was in when the test started; proved below). -/
def testRow (t : TestRun) : List String :=
  rowOf (runTest beginState t).jtl_dict

/-- The error-writer entries a given test contributes (none or one). -/
def testEntries (t : TestRun) : List ErrEntry :=
  (runTest beginState t).errEntries

/-- The bytes a given test pushes to the error stream. -/
def testErrOut (t : TestRun) : String :=
  String.join ((testEntries t).map serializeEntry)

/-! ### Derived views of a signal sequence -/

/-- Is the signal an error or a failure (the two that stash `last_err`)? -/
def isErrSignal : Signal → Bool
  | Signal.error _ => true
  | Signal.failure _ => true
  | Signal.skip => false
  | Signal.success => false

/-- Did any callback of the test stash an exception? -/
def hasErrSignal (t : TestRun) : Bool := t.signals.any isErrSignal

/-- The stashed exception after a sequence of callbacks: each error or
failure overwrites it, skip and success leave it alone. -/
def stashAfter (acc : Option ExcInfo) : List Signal → Option ExcInfo
  | [] => acc
  | Signal.error err :: rest => stashAfter (some err) rest
  | Signal.failure err :: rest => stashAfter (some err) rest
  | Signal.skip :: rest => stashAfter acc rest
  | Signal.success :: rest => stashAfter acc rest

/-- The responseCode each signal writes. -/
def codeOfSignal : Signal → String
  | Signal.error _ => "500"
  | Signal.failure _ => "404"
  | Signal.skip => "300"
  | Signal.success => "200"

/-- responseCode after a sequence of callbacks (last writer wins). -/
def codeAfter (acc : PVal) : List Signal → PVal
  | [] => acc
  | sig :: rest => codeAfter (PVal.s (codeOfSignal sig)) rest

/-- success flag after a sequence of callbacks: only `addSuccess`
writes it, and nothing ever resets it. -/
def successAfter (acc : PVal) : List Signal → PVal
  | [] => acc
  | Signal.success :: rest => successAfter (PVal.s "true") rest
  | Signal.error _ :: rest => successAfter acc rest
  | Signal.failure _ :: rest => successAfter acc rest
  | Signal.skip :: rest => successAfter acc rest

/-- Spec-side notion for claim C2: the outcome of a test as determined
by the LAST outcome signal received before stop, being failure or
error.  (Taken from the spec's words, to be compared with what the
code does.) -/
def specLastOutcomeIsFailureOrError (t : TestRun) : Bool :=
  match t.signals.getLast? with
  | some (Signal.error _) => true
  | some (Signal.failure _) => true
  | _ => false

/-- Is the signal the success callback? -/
def isSuccessSignal : Signal → Bool
  | Signal.success => true
  | Signal.error _ => false
  | Signal.failure _ => false
  | Signal.skip => false

/-- Concatenated serialization of a list of error-writer entries. -/
def entriesText : List ErrEntry → String
  | [] => ""
  | en :: rest => serializeEntry en ++ entriesText rest

/-! ### Concrete runs used in scenario claims and counterexamples -/

/-- A `ValueError: bad input` exception triple, with some formatted
traceback text. -/
def valueErrorInfo : ExcInfo :=
  { typeName := "ValueError", msg := "bad input", tbText := "  File a.py, line 1, in f\n" }

/-- Scenario B from the spec: success, failure raising ValueError, skip. -/
def scenarioB : List TestRun :=
  [{ test := "test_ok (pkg.module.CalcTest)", startMs := 0, signals := [Signal.success], stopMs := 3 },
   { test := "test_fail (pkg.module.CalcTest)", startMs := 4, signals := [Signal.failure valueErrorInfo], stopMs := 7 },
   { test := "test_skip (pkg.module.CalcTest)", startMs := 8, signals := [Signal.skip], stopMs := 9 }]

/-- The middle test of scenario B on its own. -/
def failOnlyRun : TestRun :=
  { test := "test_fail (pkg.module.CalcTest)", startMs := 4,
    signals := [Signal.failure valueErrorInfo], stopMs := 7 }

/-- A test whose failure callback is followed by a skip callback. -/
def failThenSkipRun : TestRun :=
  { test := "test_one (pkg.module.CalcTest)", startMs := 0,
    signals := [Signal.failure valueErrorInfo, Signal.skip], stopMs := 5 }

/-- A test whose success callback is followed by a skip callback. -/
def successThenSkipRun : TestRun :=
  { test := "test_one (pkg.module.CalcTest)", startMs := 0,
    signals := [Signal.success, Signal.skip], stopMs := 5 }

/-- A test whose identity string contains no space, so the method
pattern cannot match. -/
def noSpaceRun : TestRun :=
  { test := "testnospace", startMs := 0, signals := [Signal.success], stopMs := 1 }

/-- A test with a single success callback, used as witness input. -/
def successOnlyRun : TestRun :=
  { test := "test_ok (pkg.module.CalcTest)", startMs := 0, signals := [Signal.success], stopMs := 1 }

/-! ### Helper lemmas -/

theorem entriesText_append (l₁ l₂ : List ErrEntry) :
    entriesText (l₁ ++ l₂) = entriesText l₁ ++ entriesText l₂ := by
  induction l₁ with
  | nil => simp [entriesText]
  | cons en rest ih => simp [entriesText, ih, String.append_assoc]

theorem processSignal_frame (st : PluginState) (sig : Signal) :
    (processSignal st sig).csvRows = st.csvRows ∧
    (processSignal st sig).errEntries = st.errEntries ∧
    (processSignal st sig).error_writer = st.error_writer ∧
    (processSignal st sig).test_count = st.test_count ∧
    (processSignal st sig).startTime = st.startTime := by
  cases sig <;> exact ⟨rfl, rfl, rfl, rfl, rfl⟩

theorem foldSignals_frame (sigs : List Signal) (st : PluginState) :
    (foldSignals st sigs).csvRows = st.csvRows ∧
    (foldSignals st sigs).errEntries = st.errEntries ∧
    (foldSignals st sigs).error_writer = st.error_writer ∧
    (foldSignals st sigs).test_count = st.test_count ∧
    (foldSignals st sigs).startTime = st.startTime := by
  induction sigs generalizing st with
  | nil => exact ⟨rfl, rfl, rfl, rfl, rfl⟩
  | cons s rest ih =>
    obtain ⟨f1, f2, f3, f4, f5⟩ := processSignal_frame st s
    obtain ⟨g1, g2, g3, g4, g5⟩ := ih (processSignal st s)
    exact ⟨g1.trans f1, g2.trans f2, g3.trans f3, g4.trans f4, g5.trans f5⟩

/-- The record and the stashed exception after the callbacks depend
only on their values before the callbacks. -/
theorem foldSignals_record (sigs : List Signal) (st₁ st₂ : PluginState)
    (hj : st₁.jtl_dict = st₂.jtl_dict) (he : st₁.last_err = st₂.last_err) :
    (foldSignals st₁ sigs).jtl_dict = (foldSignals st₂ sigs).jtl_dict ∧
    (foldSignals st₁ sigs).last_err = (foldSignals st₂ sigs).last_err := by
  induction sigs generalizing st₁ st₂ with
  | nil => exact ⟨hj, he⟩
  | cons s rest ih =>
    refine ih (processSignal st₁ s) (processSignal st₂ s) ?_ ?_ <;>
      cases s <;>
        simp [processSignal, addError, addFailure, addSkip, addSuccess, hj, he]

theorem foldSignals_last_err (sigs : List Signal) (st : PluginState) :
    (foldSignals st sigs).last_err = stashAfter st.last_err sigs := by
  induction sigs generalizing st with
  | nil => rfl
  | cons s rest ih =>
    have h : foldSignals st (s :: rest) = foldSignals (processSignal st s) rest := rfl
    rw [h, ih]
    cases s <;> rfl

theorem foldSignals_responseCode (sigs : List Signal) (st : PluginState) :
    (foldSignals st sigs).jtl_dict.responseCode =
      codeAfter st.jtl_dict.responseCode sigs := by
  induction sigs generalizing st with
  | nil => rfl
  | cons s rest ih =>
    have h : foldSignals st (s :: rest) = foldSignals (processSignal st s) rest := rfl
    rw [h, ih]
    cases s <;> rfl

theorem foldSignals_success_flag (sigs : List Signal) (st : PluginState) :
    (foldSignals st sigs).jtl_dict.success =
      successAfter st.jtl_dict.success sigs := by
  induction sigs generalizing st with
  | nil => rfl
  | cons s rest ih =>
    have h : foldSignals st (s :: rest) = foldSignals (processSignal st s) rest := rfl
    rw [h, ih]
    cases s <;> rfl

theorem stashAfter_none_iff (sigs : List Signal) (acc : Option ExcInfo) :
    stashAfter acc sigs = none ↔ acc = none ∧ sigs.any isErrSignal = false := by
  induction sigs generalizing acc with
  | nil => simp [stashAfter]
  | cons s rest ih => cases s <;> simp [stashAfter, isErrSignal, ih]

theorem codeAfter_mem (sigs : List Signal) (acc : PVal) (h : sigs ≠ []) :
    codeAfter acc sigs = PVal.s "200" ∨ codeAfter acc sigs = PVal.s "300" ∨
    codeAfter acc sigs = PVal.s "404" ∨ codeAfter acc sigs = PVal.s "500" := by
  induction sigs generalizing acc with
  | nil => exact absurd rfl h
  | cons s rest ih =>
    cases hr : rest with
    | nil => cases s <;> simp [codeAfter, codeOfSignal]
    | cons a b =>
      have hne : rest ≠ [] := by simp [hr]
      have := ih (PVal.s (codeOfSignal s)) hne
      rw [hr] at this
      simpa [codeAfter] using this

theorem successAfter_eq (sigs : List Signal) (acc : PVal) :
    successAfter acc sigs =
      if sigs.any isSuccessSignal then PVal.s "true" else acc := by
  induction sigs generalizing acc with
  | nil => simp [successAfter]
  | cons s rest ih => cases s <;> simp [successAfter, isSuccessSignal, ih]

/-- The redundant-reassignment `if` in `startTest` always leaves
`_module_name = file + "." + class`. -/
theorem moduleNameResolve (m f c : String) :
    (if m ≠ f ++ "." ++ c then f ++ "." ++ c else m) = f ++ "." ++ c := by
  split
  · rfl
  · next h => exact not_not.mp h

theorem startTest_module_name (st : PluginState) (test : String) (nowMs : Int) :
    (startTest st test nowMs).module_name =
      parseFile test ++ "." ++ parseClass test := by
  simp [startTest, moduleNameResolve]

theorem startTest_jtl (st : PluginState) (test : String) (nowMs : Int) :
    (startTest st test nowMs).jtl_dict = { freshJtl with
      timeStamp := PVal.i nowMs,
      label := PVal.s (parseMethod test),
      threadName := PVal.s (parseFile test ++ "." ++ parseClass test),
      grpThreads := PVal.i 1,
      allThreads := PVal.i 1,
      success := PVal.s "false" } := by
  simp [startTest, moduleNameResolve]

theorem stopTest_of_none (st : PluginState) (nowMs : Int) (h : st.last_err = none) :
    stopTest st nowMs =
      { st with
        test_count := st.test_count + 1,
        jtl_dict := { st.jtl_dict with
          elapsed := PVal.s (toString (nowMs - st.startTime)) },
        csvRows := st.csvRows ++ [rowOf { st.jtl_dict with
          elapsed := PVal.s (toString (nowMs - st.startTime)) }] } := by
  simp [stopTest, h]

theorem stopTest_of_some (st : PluginState) (nowMs : Int) (e : ExcInfo)
    (h : st.last_err = some e) :
    stopTest st nowMs =
      { st with
        test_count := st.test_count + 1,
        jtl_dict := { st.jtl_dict with
          elapsed := PVal.s (toString (nowMs - st.startTime)),
          responseMessage := PVal.s e.typeName },
        error_writer := add_sample st.error_writer
          { sample := mkErrSample
              { st.jtl_dict with
                elapsed := PVal.s (toString (nowMs - st.startTime)),
                responseMessage := PVal.s e.typeName }
              e.typeName (e.tbText ++ "\n" ++ e.msg),
            url := st.jtl_dict.label,
            respData := e.tbText ++ "\n" ++ e.msg },
        errEntries := st.errEntries ++
          [{ sample := mkErrSample
               { st.jtl_dict with
                 elapsed := PVal.s (toString (nowMs - st.startTime)),
                 responseMessage := PVal.s e.typeName }
               e.typeName (e.tbText ++ "\n" ++ e.msg),
             url := st.jtl_dict.label,
             respData := e.tbText ++ "\n" ++ e.msg }],
        csvRows := st.csvRows ++ [rowOf { st.jtl_dict with
          elapsed := PVal.s (toString (nowMs - st.startTime)),
          responseMessage := PVal.s e.typeName }] } := by
  simp [stopTest, h]

/-- What one sequential test adds to the run state: its record is
independent of the surrounding state, it appends exactly one CSV row,
zero or one error entry, the corresponding bytes on the error stream,
and bumps the test counter. -/
theorem runTest_decomp (st : PluginState) (t : TestRun) :
    (runTest st t).jtl_dict = (runTest beginState t).jtl_dict ∧
    (runTest st t).csvRows = st.csvRows ++ [testRow t] ∧
    (runTest st t).errEntries = st.errEntries ++ testEntries t ∧
    (runTest st t).error_writer.out = st.error_writer.out ++ entriesText (testEntries t) ∧
    (runTest st t).error_writer.closed = st.error_writer.closed ∧
    (runTest st t).test_count = st.test_count + 1 := by
  have hjtl : (startTest st t.test t.startMs).jtl_dict =
      (startTest beginState t.test t.startMs).jtl_dict := by
    rw [startTest_jtl, startTest_jtl]
  have herr : (startTest st t.test t.startMs).last_err =
      (startTest beginState t.test t.startMs).last_err := rfl
  obtain ⟨hr1, hr2⟩ := foldSignals_record t.signals
    (startTest st t.test t.startMs) (startTest beginState t.test t.startMs) hjtl herr
  obtain ⟨ha1, ha2, ha3, ha4, ha5⟩ :=
    foldSignals_frame t.signals (startTest st t.test t.startMs)
  obtain ⟨hb1, hb2, hb3, hb4, hb5⟩ :=
    foldSignals_frame t.signals (startTest beginState t.test t.startMs)
  have hstA : (foldSignals (startTest st t.test t.startMs) t.signals).startTime =
      t.startMs := ha5.trans rfl
  have hstB : (foldSignals (startTest beginState t.test t.startMs) t.signals).startTime =
      t.startMs := hb5.trans rfl
  have hcsvA : (startTest st t.test t.startMs).csvRows = st.csvRows := rfl
  have herrA : (startTest st t.test t.startMs).errEntries = st.errEntries := rfl
  have hwA : (startTest st t.test t.startMs).error_writer = st.error_writer := rfl
  have htcA : (startTest st t.test t.startMs).test_count = st.test_count := rfl
  have hcsvB : (startTest beginState t.test t.startMs).csvRows = [JTL_HEADER] := rfl
  have herrB : (startTest beginState t.test t.startMs).errEntries = [] := rfl
  have hrun : runTest st t =
      stopTest (foldSignals (startTest st t.test t.startMs) t.signals) t.stopMs := rfl
  have hrunB : runTest beginState t =
      stopTest (foldSignals (startTest beginState t.test t.startMs) t.signals) t.stopMs := rfl
  cases h : (foldSignals (startTest st t.test t.startMs) t.signals).last_err with
  | none =>
    have hB : (foldSignals (startTest beginState t.test t.startMs) t.signals).last_err =
        none := hr2 ▸ h
    rw [hrun, hrunB, stopTest_of_none _ _ h]
    rw [testRow, testEntries, hrunB, stopTest_of_none _ _ hB]
    simp only [ha1, ha2, ha3, ha4, hstA, hb1, hb2, hb3, hb4, hstB, hr1,
      hcsvA, herrA, hwA, htcA, hcsvB, herrB, entriesText, List.append_nil,
      String.append_empty]
    exact ⟨trivial, trivial, trivial, trivial, trivial, trivial⟩
  | some e =>
    have hB : (foldSignals (startTest beginState t.test t.startMs) t.signals).last_err =
        some e := hr2 ▸ h
    rw [hrun, hrunB, stopTest_of_some _ _ _ h]
    rw [testRow, testEntries, hrunB, stopTest_of_some _ _ _ hB]
    simp only [ha1, ha2, ha3, ha4, hstA, hb1, hb2, hb3, hb4, hstB, hr1,
      hcsvA, herrA, hwA, htcA, hcsvB, herrB, entriesText, add_sample,
      List.nil_append, List.append_nil, String.append_empty, String.append_assoc]
    exact ⟨trivial, trivial, trivial, trivial, trivial, trivial⟩

/-- A whole run appends one CSV row per test in completion order, the
per-test error entries in order, the matching bytes on the error
stream, leaves the error writer unclosed, and counts every test. -/
theorem foldRun_decomp (ts : List TestRun) (st : PluginState) :
    (ts.foldl runTest st).csvRows = st.csvRows ++ ts.map testRow ∧
    (ts.foldl runTest st).errEntries = st.errEntries ++ (ts.map testEntries).flatten ∧
    (ts.foldl runTest st).error_writer.out =
      st.error_writer.out ++ entriesText ((ts.map testEntries).flatten) ∧
    (ts.foldl runTest st).error_writer.closed = st.error_writer.closed ∧
    (ts.foldl runTest st).test_count = st.test_count + ts.length := by
  induction ts generalizing st with
  | nil => simp [entriesText]
  | cons t rest ih =>
    obtain ⟨h1, h2, h3, h4, h5⟩ := ih (runTest st t)
    obtain ⟨g0, g1, g2, g3, g4, g5⟩ := runTest_decomp st t
    have hfold : (t :: rest).foldl runTest st = rest.foldl runTest (runTest st t) := rfl
    rw [hfold]
    refine ⟨?_, ?_, ?_, ?_, ?_⟩
    · rw [h1, g1]; simp
    · rw [h2, g2]; simp
    · rw [h3, g3]; simp [entriesText_append, String.append_assoc]
    · rw [h4, g4]
    · rw [h5, g5]; simp only [List.length_cons]; omega

/-- How many error entries one test contributes: one when some
callback stashed an exception, none otherwise. -/
theorem testEntries_length (t : TestRun) :
    (testEntries t).length = if hasErrSignal t then 1 else 0 := by
  have hB : (foldSignals (startTest beginState t.test t.startMs) t.signals).last_err =
      stashAfter none t.signals :=
    foldSignals_last_err t.signals (startTest beginState t.test t.startMs)
  have herrB : (startTest beginState t.test t.startMs).errEntries = [] := rfl
  obtain ⟨-, hb2, -, -, -⟩ :=
    foldSignals_frame t.signals (startTest beginState t.test t.startMs)
  have hrunB : runTest beginState t =
      stopTest (foldSignals (startTest beginState t.test t.startMs) t.signals) t.stopMs := rfl
  cases hc : stashAfter (none : Option ExcInfo) t.signals with
  | none =>
    have hany : t.signals.any isErrSignal = false :=
      ((stashAfter_none_iff t.signals none).mp hc).2
    have hne : hasErrSignal t = false := hany
    rw [testEntries, hrunB, stopTest_of_none _ _ (hB.trans hc)]
    simp [hb2, herrB, hne]
  | some e =>
    have hany : t.signals.any isErrSignal = true := by
      by_contra hfalse
      have hx : t.signals.any isErrSignal = false := by
        cases hy : t.signals.any isErrSignal
        · rfl
        · exact absurd hy hfalse
      have : stashAfter (none : Option ExcInfo) t.signals = none :=
        (stashAfter_none_iff t.signals none).mpr ⟨rfl, hx⟩
      rw [hc] at this
      exact Option.noConfusion this
    have hne : hasErrSignal t = true := hany
    rw [testEntries, hrunB, stopTest_of_some _ _ _ (hB.trans hc)]
    simp [hb2, herrB, hne]

theorem entriesCount (ts : List TestRun) :
    ((ts.map testEntries).flatten).length = (ts.filter hasErrSignal).length := by
  induction ts with
  | nil => rfl
  | cons t rest ih =>
    have hj : ((t :: rest).map testEntries).flatten =
        testEntries t ++ (rest.map testEntries).flatten := by simp
    rw [hj, List.length_append, testEntries_length t, ih]
    cases h : hasErrSignal t
    · simp [List.filter_cons, h]
    · simp [List.filter_cons, h]
      omega

/-- The finished record's responseCode and success flag, seen through
`stopTest` (which never touches either field). -/
theorem runTest_code_success (st : PluginState) (t : TestRun) :
    (runTest st t).jtl_dict.responseCode = codeAfter (PVal.i 0) t.signals ∧
    (runTest st t).jtl_dict.success = successAfter (PVal.s "false") t.signals := by
  have hA1 : (foldSignals (startTest st t.test t.startMs) t.signals).jtl_dict.responseCode =
      codeAfter (PVal.i 0) t.signals :=
    foldSignals_responseCode t.signals (startTest st t.test t.startMs)
  have hA2 : (foldSignals (startTest st t.test t.startMs) t.signals).jtl_dict.success =
      successAfter (PVal.s "false") t.signals :=
    foldSignals_success_flag t.signals (startTest st t.test t.startMs)
  have hrun : runTest st t =
      stopTest (foldSignals (startTest st t.test t.startMs) t.signals) t.stopMs := rfl
  cases h : (foldSignals (startTest st t.test t.startMs) t.signals).last_err with
  | none =>
    rw [hrun, stopTest_of_none _ _ h]
    exact ⟨hA1, hA2⟩
  | some e =>
    rw [hrun, stopTest_of_some _ _ _ h]
    exact ⟨hA1, hA2⟩

theorem jtlWriterClose_closed (w : JTLErrorWriter) : (jtlWriterClose w).closed = true := by
  unfold jtlWriterClose
  split
  · next h => exact h
  · rfl

theorem lazyCapture_none_of_not_mem (term : Char) (l : List Char) (h : term ∉ l) :
    lazyCapture term l = none := by
  induction l with
  | nil => rfl
  | cons c rest ih =>
    have hc : ¬ (c = term) := fun hh => h (hh ▸ List.mem_cons_self c rest)
    have hrest : term ∉ rest := fun hm => h (List.mem_cons_of_mem _ hm)
    unfold lazyCapture
    rw [if_neg hc]
    by_cases hn : c = '\n'
    · rw [if_pos hn]
    · rw [if_neg hn, ih hrest]
      rfl

theorem methodCapture_none_of_no_space (l : List Char) (h : ' ' ∉ l) :
    methodCapture l = none := by
  induction l with
  | nil => rfl
  | cons c rest ih =>
    have hrest : ' ' ∉ rest := fun hm => h (List.mem_cons_of_mem _ hm)
    unfold methodCapture
    rw [lazyCapture_none_of_not_mem ' ' (c :: rest) h]
    exact ih hrest

/-! ### The claims -/

/-- C1: for every run of N tests processed strictly sequentially
(startTest before stopTest for each test), the tabular sample log
afterwards is exactly one header row followed by exactly N data rows,
one row per test, in the order the tests completed. -/
theorem claim_C1 (ts : List TestRun) :
    (runAll ts).csvRows = JTL_HEADER :: ts.map testRow ∧
    (runAll ts).csvRows.length = ts.length + 1 := by
  have h := (foldRun_decomp ts beginState).1
  have hb : beginState.csvRows = [JTL_HEADER] := rfl
  rw [runAll, h, hb]
  constructor
  · simp
  · simp

/-- C2 counterexample: for the run of the single test whose callbacks
are failure-then-skip, a diagnostic entry is written (the stashed
exception survives the skip) although the outcome determined by the
LAST signal is skip, so the entry count (1) differs from the count of
tests whose last-signal outcome was failure or error (0). -/
theorem claim_C2_counterexample :
    ¬ ((runAll [failThenSkipRun]).errEntries.length =
       (List.filter specLastOutcomeIsFailureOrError [failThenSkipRun]).length) := by
  decide

/-- C2 (amended): for every run, the number of entries written to the
diagnostic document equals exactly the number of tests that received
at least one failure or error signal before stop (a later skip or
success signal does not clear the stashed exception). -/
theorem claim_C2_amended (ts : List TestRun) :
    (runAll ts).errEntries.length = (ts.filter hasErrSignal).length := by
  have h := (foldRun_decomp ts beginState).2.1
  have hb : beginState.errEntries = [] := rfl
  rw [runAll, h, hb, List.nil_append]
  exact entriesCount ts

/-- C3 counterexample: for the test whose callbacks are
success-then-skip, the row has success = "true" while responseCode is
"300", so "success is true iff responseCode is 200" fails. -/
theorem claim_C3_counterexample :
    ¬ (((runTest beginState successThenSkipRun).jtl_dict.success = PVal.s "true") ↔
       ((runTest beginState successThenSkipRun).jtl_dict.responseCode = PVal.s "200")) := by
  decide

/-- C3 (amended): for every completed test that received at least one
outcome signal, responseCode is one of {200, 300, 404, 500} (that of
the last signal), and the success field is "true" iff at least one
success signal was received — when each test receives exactly one
signal this coincides with "success iff responseCode = 200", but a
success followed by another signal keeps success = "true" while
responseCode moves. -/
theorem claim_C3_amended (st : PluginState) (t : TestRun) (h : t.signals ≠ []) :
    ((runTest st t).jtl_dict.responseCode = PVal.s "200" ∨
     (runTest st t).jtl_dict.responseCode = PVal.s "300" ∨
     (runTest st t).jtl_dict.responseCode = PVal.s "404" ∨
     (runTest st t).jtl_dict.responseCode = PVal.s "500") ∧
    ((runTest st t).jtl_dict.success = PVal.s "true" ↔
      t.signals.any isSuccessSignal = true) := by
  obtain ⟨hc, hs⟩ := runTest_code_success st t
  constructor
  · rw [hc]
    exact codeAfter_mem t.signals (PVal.i 0) h
  · rw [hs, successAfter_eq]
    cases hany : t.signals.any isSuccessSignal with
    | true => simp [hany]
    | false => simp [hany]

/-- C3 witness: the amended statement instantiated at a test with a
single success signal. -/
theorem claim_C3_witness :
    (((runTest beginState successOnlyRun).jtl_dict.responseCode = PVal.s "200" ∨
      (runTest beginState successOnlyRun).jtl_dict.responseCode = PVal.s "300" ∨
      (runTest beginState successOnlyRun).jtl_dict.responseCode = PVal.s "404" ∨
      (runTest beginState successOnlyRun).jtl_dict.responseCode = PVal.s "500") ∧
     ((runTest beginState successOnlyRun).jtl_dict.success = PVal.s "true" ↔
       successOnlyRun.signals.any isSuccessSignal = true)) :=
  claim_C3_amended beginState successOnlyRun (by decide)

/-- C4: whenever a test ends with a stashed exception, stopTest
overwrites the record's responseMessage with the exception's type name
and appends exactly one diagnostic entry whose response-message
attribute is that type name and whose response-body trace text is the
formatted stack text concatenated (with a newline) with the exception
message; in particular scenario B (success, failure raising
ValueError, skip) yields exactly one entry whose response-message is
"ValueError". -/
theorem claim_C4 :
    (∀ (st : PluginState) (t : TestRun) (e : ExcInfo),
        stashAfter none t.signals = some e →
        (runTest st t).jtl_dict.responseMessage = PVal.s e.typeName ∧
        ∃ en : ErrEntry,
          (runTest st t).errEntries = st.errEntries ++ [en] ∧
          en.sample.rm = e.typeName ∧
          en.respData = e.tbText ++ "\n" ++ e.msg) ∧
    ((runAll scenarioB).errEntries.map (fun en => en.sample.rm) = ["ValueError"]) := by
  constructor
  · intro st t e he
    have hA : (foldSignals (startTest st t.test t.startMs) t.signals).last_err = some e := by
      rw [foldSignals_last_err]
      exact he
    have hfr : (foldSignals (startTest st t.test t.startMs) t.signals).errEntries =
        st.errEntries :=
      (foldSignals_frame t.signals (startTest st t.test t.startMs)).2.1
    have hrun : runTest st t =
        stopTest (foldSignals (startTest st t.test t.startMs) t.signals) t.stopMs := rfl
    rw [hrun, stopTest_of_some _ _ _ hA]
    exact ⟨rfl, ⟨_, by rw [hfr], rfl, rfl⟩⟩
  · decide

/-- C4 witness: the general statement instantiated at the failure test
of scenario B. -/
theorem claim_C4_witness :
    (runTest beginState failOnlyRun).jtl_dict.responseMessage =
      PVal.s valueErrorInfo.typeName ∧
    ∃ en : ErrEntry,
      (runTest beginState failOnlyRun).errEntries = beginState.errEntries ++ [en] ∧
      en.sample.rm = valueErrorInfo.typeName ∧
      en.respData = valueErrorInfo.tbText ++ "\n" ++ valueErrorInfo.msg :=
  claim_C4.1 beginState failOnlyRun valueErrorInfo (by decide)

/-- C5: whenever the diagnostic writer reaches close() (which
`finalize` always calls), the diagnostic document is the XML
declaration, the single root testResults element with version "1.2",
the entries added in order, and the root end-tag — for any number of
entries including zero. -/
theorem claim_C5 (ts : List TestRun) :
    (finalize (runAll ts)).1.error_writer.out =
      xmlDeclaration ++ testResultsOpenTag ++
        entriesText (runAll ts).errEntries ++ testResultsCloseTag ∧
    (finalize (runAll ts)).1.error_writer.closed = true := by
  obtain ⟨-, h2, h3, h4, -⟩ := foldRun_decomp ts beginState
  have hb2 : beginState.errEntries = [] := rfl
  have hb3 : beginState.error_writer.out = xmlDeclaration ++ testResultsOpenTag := rfl
  have hb4 : beginState.error_writer.closed = false := rfl
  have hent : (runAll ts).errEntries = (ts.map testEntries).flatten := by
    rw [runAll, h2, hb2, List.nil_append]
  have hout : (runAll ts).error_writer.out =
      (xmlDeclaration ++ testResultsOpenTag) ++ entriesText ((ts.map testEntries).flatten) := by
    rw [runAll, h3, hb3]
  have hcl : (runAll ts).error_writer.closed = false := by
    rw [runAll, h4, hb4]
  have hfin : (finalize (runAll ts)).1.error_writer =
      jtlWriterClose (runAll ts).error_writer := by
    simp only [finalize]
    by_cases h0 : (runAll ts).test_count = 0
    · rw [if_pos h0]
    · rw [if_neg h0]
  rw [hfin, jtlWriterClose]
  rw [if_neg (by rw [hcl]; exact Bool.false_ne_true)]
  constructor
  · rw [hout, hent]
  · rfl

/-- C6: parsing the identity string "test_add (pkg.module.CalcTest)"
at test start yields method name (label) "test_add" and thread-group
name "pkg.module.CalcTest", whatever the prior state. -/
theorem claim_C6 (st : PluginState) (nowMs : Int) :
    (startTest st "test_add (pkg.module.CalcTest)" nowMs).method_name = "test_add" ∧
    (startTest st "test_add (pkg.module.CalcTest)" nowMs).module_name =
      "pkg.module.CalcTest" ∧
    (startTest st "test_add (pkg.module.CalcTest)" nowMs).jtl_dict.label =
      PVal.s "test_add" ∧
    (startTest st "test_add (pkg.module.CalcTest)" nowMs).jtl_dict.threadName =
      PVal.s "pkg.module.CalcTest" := by
  have hm := startTest_module_name st "test_add (pkg.module.CalcTest)" nowMs
  refine ⟨rfl, hm.trans (by decide), ?_, ?_⟩
  · show PVal.s (parseMethod "test_add (pkg.module.CalcTest)") = PVal.s "test_add"
    exact congrArg PVal.s (by decide)
  · have h2 : (startTest st "test_add (pkg.module.CalcTest)" nowMs).jtl_dict.threadName =
        PVal.s ((startTest st "test_add (pkg.module.CalcTest)" nowMs).module_name) := rfl
    rw [h2, hm]
    exact congrArg PVal.s (by decide)

/-- C7: finalize raises the fatal empty-run error exactly when the
tests-run counter is zero, and in both cases it has already closed the
diagnostic writer (committing the root end-tag) and both output
streams. -/
theorem claim_C7 (st : PluginState) :
    ((finalize st).2 = some "Nothing to test." ↔ st.test_count = 0) ∧
    ((finalize st).2 = none ↔ st.test_count ≠ 0) ∧
    (finalize st).1.error_writer = jtlWriterClose st.error_writer ∧
    (finalize st).1.error_writer.closed = true ∧
    (finalize st).1.outClosed = true ∧
    (finalize st).1.errClosed = true := by
  unfold finalize
  by_cases h : st.test_count = 0
  · rw [if_pos h]
    exact ⟨by simp [h], by simp [h], rfl, jtlWriterClose_closed _, rfl, rfl⟩
  · rw [if_neg h]
    exact ⟨by simp [h], by simp [h], rfl, jtlWriterClose_closed _, rfl, rfl⟩

/-- C8 counterexample: the identity string "testnospace" has no space,
the method pattern fails, and the test's row is appended to the log
with an EMPTY label (third column), refuting "label is non-empty for
every input identity string". -/
theorem claim_C8_counterexample :
    (runTest beginState noSpaceRun).jtl_dict.label = PVal.s "" ∧
    (runAll [noSpaceRun]).csvRows =
      [JTL_HEADER, ["0", "1", "", "200", "OK", ".", "true", "1", "1", "0", "0"]] := by
  decide

/-- C8 (amended): the label field is always the method-name capture of
the identity string; when the pattern fails to match — in particular
whenever the identity string contains no space — the label is the
empty string rather than an error, so it is NOT guaranteed non-empty. -/
theorem claim_C8_amended (st : PluginState) (test : String) (nowMs : Int) :
    (startTest st test nowMs).jtl_dict.label = PVal.s (parseMethod test) ∧
    (' ' ∉ test.data → parseMethod test = "") := by
  constructor
  · rfl
  · intro hs
    rw [parseMethod, methodCapture_none_of_no_space test.data hs]
    rfl

/-- C8 witness: the amended statement instantiated at "testnospace". -/
theorem claim_C8_witness :
    (startTest beginState "testnospace" 0).jtl_dict.label =
      PVal.s (parseMethod "testnospace") ∧
    parseMethod "testnospace" = "" :=
  ⟨(claim_C8_amended beginState "testnospace" 0).1,
   (claim_C8_amended beginState "testnospace" 0).2 (by decide)⟩

/-- C9: a skip signal does not clear a previously stashed exception:
for any test whose signals are an error or failure followed by a skip,
a diagnostic entry is still emitted at stop and responseMessage is
overwritten with the exception type name, even though the final
responseCode is "300". -/
theorem claim_C9 (st : PluginState) (test : String) (startMs stopMs : Int)
    (e : ExcInfo) (sig : Signal)
    (hsig : sig = Signal.error e ∨ sig = Signal.failure e) :
    (runTest st (TestRun.mk test startMs [sig, Signal.skip] stopMs)).jtl_dict.responseCode =
      PVal.s "300" ∧
    (runTest st (TestRun.mk test startMs [sig, Signal.skip] stopMs)).jtl_dict.responseMessage =
      PVal.s e.typeName ∧
    ∃ en : ErrEntry,
      (runTest st (TestRun.mk test startMs [sig, Signal.skip] stopMs)).errEntries =
        st.errEntries ++ [en] ∧
      en.sample.rm = e.typeName := by
  rcases hsig with h | h <;> subst h
  · exact ⟨rfl, rfl, ⟨_, rfl, rfl⟩⟩
  · exact ⟨rfl, rfl, ⟨_, rfl, rfl⟩⟩

/-- C9 witness: instantiated at a failure-then-skip test. -/
theorem claim_C9_witness :
    (runTest beginState (TestRun.mk "test_one (pkg.module.CalcTest)" 0
        [Signal.failure valueErrorInfo, Signal.skip] 5)).jtl_dict.responseCode =
      PVal.s "300" ∧
    (runTest beginState (TestRun.mk "test_one (pkg.module.CalcTest)" 0
        [Signal.failure valueErrorInfo, Signal.skip] 5)).jtl_dict.responseMessage =
      PVal.s valueErrorInfo.typeName ∧
    ∃ en : ErrEntry,
      (runTest beginState (TestRun.mk "test_one (pkg.module.CalcTest)" 0
          [Signal.failure valueErrorInfo, Signal.skip] 5)).errEntries =
        beginState.errEntries ++ [en] ∧
      en.sample.rm = valueErrorInfo.typeName :=
  claim_C9 beginState "test_one (pkg.module.CalcTest)" 0 5 valueErrorInfo
    (Signal.failure valueErrorInfo) (Or.inr rfl)

/-- C10: the thread-group name is built as file part, literal dot,
class part; it always contains a dot and is never empty, and when both
identity patterns fail to match it is exactly ".". -/
theorem claim_C10 (st : PluginState) (test : String) (nowMs : Int) :
    (startTest st test nowMs).module_name = parseFile test ++ "." ++ parseClass test ∧
    (startTest st test nowMs).jtl_dict.threadName =
      PVal.s ((startTest st test nowMs).module_name) ∧
    '.' ∈ (startTest st test nowMs).module_name.data ∧
    (startTest st test nowMs).module_name ≠ "" ∧
    (fileCapture test.data = none → classCapture test.data = none →
      (startTest st test nowMs).module_name = ".") := by
  have hm := startTest_module_name st test nowMs
  have hdot : '.' ∈ (startTest st test nowMs).module_name.data := by
    rw [hm, String.data_append, String.data_append]
    exact List.mem_append.mpr (Or.inl (List.mem_append.mpr (Or.inr (by simp))))
  refine ⟨hm, rfl, hdot, ?_, ?_⟩
  · intro he
    rw [he] at hdot
    simp at hdot
  · intro hf hc
    rw [hm, parseFile, parseClass, hf, hc]
    decide

/-- C10 witness: instantiated at "noparens", where both patterns fail. -/
theorem claim_C10_witness :
    (startTest beginState "noparens" 0).module_name =
      parseFile "noparens" ++ "." ++ parseClass "noparens" ∧
    (startTest beginState "noparens" 0).module_name = "." :=
  ⟨(claim_C10 beginState "noparens" 0).1,
   (claim_C10 beginState "noparens" 0).2.2.2.2 (by decide) (by decide)⟩

end NosePlugin
